import Mathlib

/-!
Verification of the kubicorn AWS route-table resource
(`cloud/amazon/resources/routetable.go`).

The Go code is shallowly embedded: each operation becomes a pure Lean
function from the resource state, its inputs and a provider behaviour
(`Sdk`, a record of response functions) to an `Outcome`, the ordered list
of provider calls performed, and the final state of any value the Go code
mutates.  Go `map[string]string` values are association lists with
insert-replace semantics; nilable pointer fields of provider responses are
`Option String`; a Go runtime fault (nil dereference, index out of range)
is the `Outcome.crash` result.
-/

namespace Kubicorn

/-- Go `map[string]string`, as an association list built by `mapInsert`
(unique keys, insertion order preserved, later inserts overwrite). -/
abbrev TagMap := List (String × String)

/-- Go map assignment `m[k] = v`: replace the binding of `k` if present,
else append it. -/
def mapInsert (m : TagMap) (k v : String) : TagMap :=
  if m.any (fun p => p.1 == k) then
    m.map (fun p => if p.1 == k then (k, v) else p)
  else
    m ++ [(k, v)]

/-- Go map read `m[k]` (as an `Option`). -/
def mapLookup (m : TagMap) (k : String) : Option String :=
  (m.find? (fun p => p.1 == k)).map Prod.snd

/-- `cluster.Subnet`: logical name plus cloud identifier
(empty until realized). -/
structure Subnet where
  name : String
  identifier : String
deriving DecidableEq, Repr

/-- `cluster.ServerPool`: name, identifier and owned subnets. -/
structure ServerPool where
  name : String
  identifier : String
  subnets : List Subnet
deriving DecidableEq, Repr

/-- `cluster.Network`: only the cloud identifier is consumed here. -/
structure Network where
  identifier : String
deriving DecidableEq, Repr

/-- `cluster.Cluster`: the root desired-state aggregate. -/
structure Cluster where
  name : String
  network : Network
  serverPools : List ServerPool
deriving DecidableEq, Repr

/-- An `ec2.Tag` of a provider response; `Key`/`Value` are nilable
pointers, hence `Option`. -/
structure EC2Tag where
  key : Option String
  value : Option String
deriving DecidableEq, Repr

/-- An `ec2.RouteTableAssociation` of a provider response. -/
structure EC2Association where
  routeTableAssociationId : Option String
deriving DecidableEq, Repr

/-- An `ec2.RouteTable` of a provider response. -/
structure EC2RouteTable where
  routeTableId : Option String
  tags : List EC2Tag
  associations : List EC2Association
deriving DecidableEq, Repr

/-- An `ec2.InternetGateway` of a provider response. -/
structure EC2InternetGateway where
  internetGatewayId : Option String
deriving DecidableEq, Repr

/-- One provider request, as issued by the code (the trace of these is the
observable effect of an operation). -/
inductive EC2Call where
  | describeRouteTables (filterName filterValue : String)
  | createRouteTable (vpcId : String)
  | describeInternetGateways (filterName filterValue : String)
  | createRoute (destinationCidrBlock gatewayId routeTableId : String)
  | associateRouteTable (subnetId routeTableId : String)
  | disassociateRouteTable (associationId : Option String)
  | deleteRouteTable (routeTableId : Option String)
  | createTags (resourceId : String) (tags : TagMap)
deriving DecidableEq, Repr

/-- The provider behaviour: for each request shape, the response the
provider would give (`Except.error` is a transport fault). -/
structure Sdk where
  describeRouteTables : String → String → Except String (List EC2RouteTable)
  createRouteTable : String → Except String EC2RouteTable
  describeInternetGateways : String → String → Except String (List EC2InternetGateway)
  createRoute : String → String → String → Except String Unit
  associateRouteTable : String → String → Except String Unit
  disassociateRouteTable : Option String → Except String Unit
  deleteRouteTable : Option String → Except String Unit
  createTags : String → TagMap → Except String Unit

/-- Result of one operation: a value, a returned Go `error`, or a Go
runtime fault (nil pointer dereference / index out of range). -/
inductive Outcome (α : Type) where
  | ok (val : α)
  | err (msg : String)
  | crash
deriving DecidableEq, Repr

/-- The `Shared` part of a resource: the snapshot fields
(Name, CloudID, Tags) every operation produces and consumes. -/
structure Shared where
  name : String
  cloudID : String
  tags : TagMap
deriving DecidableEq, Repr

/-- The `RouteTable` resource value: its own snapshot fields, the
references to its subnet and server pool, and the per-pass caches. -/
structure RouteTableRes where
  name : String
  cloudID : String
  tags : TagMap
  clusterSubnet : Subnet
  serverPool : ServerPool
  cachedActual : Option Shared
  cachedExpected : Option Shared
deriving DecidableEq, Repr

/-- The loop over `rt.Tags` in `Actual`: dereferences `*tag.Key` and
`*tag.Value` (crashing on nil, hence `none` result) and inserts each pair
into the accumulator map. -/
def readTags : List EC2Tag → TagMap → Option TagMap
  | [], acc => some acc
  | t :: rest, acc =>
    match t.key, t.value with
    | some k, some v => readTags rest (mapInsert acc k v)
    | _, _ => none

/-- `RouteTable.Actual` (routetable.go lines 33-75): return the cache if
set; else, with an unidentified subnet, cache and return a default empty
snapshot with no provider call; with an identified subnet, look the route
table up by the identity tag, require exactly one match, copy its tags and
take Name/CloudID from the subnet's logical name. -/
def Actual (r : RouteTableRes) (_known : Cluster) (sdk : Sdk) :
    Outcome Shared × List EC2Call × RouteTableRes :=
  match r.cachedActual with
  | some cached => (.ok cached, [], r)
  | none =>
    let actual0 : Shared := { name := r.name, cloudID := "", tags := [] }
    if r.clusterSubnet.identifier = "" then
      (.ok actual0, [], { r with cachedActual := some actual0 })
    else
      let call := EC2Call.describeRouteTables "tag:kubicorn-route-table-subnet-pair"
        r.clusterSubnet.name
      match sdk.describeRouteTables "tag:kubicorn-route-table-subnet-pair"
          r.clusterSubnet.name with
      | .error e => (.err e, [call], r)
      | .ok rts =>
        match rts with
        | [rt] =>
          match readTags rt.tags [] with
          | none => (.crash, [call], r)
          | some ts =>
            let actual1 : Shared :=
              { name := r.clusterSubnet.name, cloudID := r.clusterSubnet.name, tags := ts }
            (.ok actual1, [call], { r with cachedActual := some actual1 })
        | other =>
          (.err ("Found [" ++ toString other.length ++ "] Route Tables for VPC ID ["
            ++ r.clusterSubnet.identifier ++ "]"), [call], r)

/-- `RouteTable.Expected` (routetable.go lines 77-97): return the cache if
set; else build, cache and return the desired snapshot: the three-entry
tag map and Name/CloudID set to the server pool's name.  Pure: no provider
call on any path. -/
def Expected (r : RouteTableRes) (known : Cluster) :
    Outcome Shared × List EC2Call × RouteTableRes :=
  match r.cachedExpected with
  | some cached => (.ok cached, [], r)
  | none =>
    let expected : Shared :=
      { name := r.serverPool.name
        cloudID := r.serverPool.name
        tags := [("Name", r.name), ("KubernetesCluster", known.name),
                 ("kubicorn-route-table-subnet-pair", r.clusterSubnet.name)] }
    (.ok expected, [], { r with cachedExpected := some expected })

/-- Modelled from the spec: `compare.IsEqual` (package
`cutil/compare`, not under src/).  Spec 4.2: Equality(A, B) iff
A.Name = B.Name, A.CloudID = B.CloudID, and the Tags maps hold the same
keys with the same values, order irrelevant.  On same-kind snapshots (the
only well-typed case here) it never errors. -/
def tagsEqual (a b : TagMap) : Bool :=
  a.all (fun p => mapLookup b p.1 == some p.2)
    && b.all (fun p => mapLookup a p.1 == some p.2)

/-- Modelled from the spec: the Comparator on two snapshots, spec 4.2. -/
def isEqual (a b : Shared) : Bool :=
  a.name == b.name && a.cloudID == b.cloudID && tagsEqual a.tags b.tags

/-- The subnet-id resolution loop of `Apply` (routetable.go lines
150-159): scan the cluster's server pools whose Name equals the resource's
own Name, and inside them the subnets whose Name equals it too, assigning
`subnetID` on every match (the last match wins). -/
def subnetScan (cluster : Cluster) (name : String) : String :=
  cluster.serverPools.foldl
    (fun acc sp =>
      if sp.name == name then
        sp.subnets.foldl (fun acc2 sn => if sn.name == name then sn.identifier else acc2) acc
      else acc)
    ""

/-- `RouteTable.Tag` (routetable.go lines 238-255): issue one create-tags
request addressed at the receiver's CloudID. -/
def Tag (cloudID : String) (tags : TagMap) (sdk : Sdk) :
    Outcome Unit × List EC2Call :=
  let call := EC2Call.createTags cloudID tags
  match sdk.createTags cloudID tags with
  | .error e => (.err e, [call])
  | .ok _ => (.ok (), [call])

/-- `RouteTable.Apply` (routetable.go lines 98-184).  The third component
of the result is the final state of the `expected` snapshot, which the Go
code mutates through its pointer (line 174 assigns its CloudID).  Equal
snapshots: return `expected` itself with no call.  Otherwise: create the
route table (dereferencing its id for logging), resolve the internet
gateway by identity tag requiring exactly one match (dereferencing its id
for logging), create the default route, resolve the subnet id with
`subnetScan` over the resource's own Name, associate, write the new id
into `expected`, tag via `Tag`, and return a fresh snapshot carrying only
Name and CloudID (its Tags are the zero value, empty). -/
def Apply (r : RouteTableRes) (actual expected : Shared) (applyCluster : Cluster)
    (sdk : Sdk) : Outcome Shared × List EC2Call × Shared :=
  if isEqual actual expected then
    (.ok expected, [], expected)
  else
    let c1 := EC2Call.createRouteTable applyCluster.network.identifier
    match sdk.createRouteTable applyCluster.network.identifier with
    | .error e => (.err e, [c1], expected)
    | .ok rtOut =>
      match rtOut.routeTableId with
      | none => (.crash, [c1], expected)
      | some rtid =>
        let c2 := EC2Call.describeInternetGateways "tag:kubicorn-internet-gateway-name"
          applyCluster.name
        match sdk.describeInternetGateways "tag:kubicorn-internet-gateway-name"
            applyCluster.name with
        | .error e => (.err e, [c1, c2], expected)
        | .ok gws =>
          match gws with
          | [ig] =>
            match ig.internetGatewayId with
            | none => (.crash, [c1, c2], expected)
            | some igid =>
              let c3 := EC2Call.createRoute "0.0.0.0/0" igid rtid
              match sdk.createRoute "0.0.0.0/0" igid rtid with
              | .error e => (.err e, [c1, c2, c3], expected)
              | .ok _ =>
                let subnetID := subnetScan applyCluster r.name
                if subnetID = "" then
                  (.err "Unable to find subnet id", [c1, c2, c3], expected)
                else
                  let c4 := EC2Call.associateRouteTable subnetID rtid
                  match sdk.associateRouteTable subnetID rtid with
                  | .error e => (.err e, [c1, c2, c3, c4], expected)
                  | .ok _ =>
                    let expected1 : Shared := { expected with cloudID := rtid }
                    match Tag expected1.cloudID expected1.tags sdk with
                    | (.err e, tcalls) => (.err e, [c1, c2, c3, c4] ++ tcalls, expected1)
                    | (_, tcalls) =>
                      let newResource : Shared :=
                        { name := expected1.name, cloudID := expected1.cloudID, tags := [] }
                      (.ok newResource, [c1, c2, c3, c4] ++ tcalls, expected1)
          | other =>
            (.err ("Found [" ++ toString other.length ++ "] Internet Gateways for ID ["
              ++ r.serverPool.identifier ++ "]"), [c1, c2], expected)

/-- `RouteTable.Delete` (routetable.go lines 185-231): refuse an empty
CloudID with no provider call; else re-resolve the remote object by the
identity tag requiring exactly one match, index its first association
(index out of range when there is none: `crash`), disassociate, delete,
and return a snapshot keeping Name and Tags with CloudID left at the zero
value. -/
def Delete (r : RouteTableRes) (actual : Shared) (_known : Cluster) (sdk : Sdk) :
    Outcome Shared × List EC2Call :=
  if actual.cloudID = "" then
    (.err ("Unable to delete routetable resource without ID [" ++ actual.name ++ "]"), [])
  else
    let c1 := EC2Call.describeRouteTables "tag:kubicorn-route-table-subnet-pair"
      r.clusterSubnet.name
    match sdk.describeRouteTables "tag:kubicorn-route-table-subnet-pair"
        r.clusterSubnet.name with
    | .error e => (.err e, [c1])
    | .ok rts =>
      match rts with
      | [rt] =>
        match rt.associations with
        | [] => (.crash, [c1])
        | a :: _ =>
          let c2 := EC2Call.disassociateRouteTable a.routeTableAssociationId
          match sdk.disassociateRouteTable a.routeTableAssociationId with
          | .error e => (.err e, [c1, c2])
          | .ok _ =>
            let c3 := EC2Call.deleteRouteTable rt.routeTableId
            match sdk.deleteRouteTable rt.routeTableId with
            | .error e => (.err e, [c1, c2, c3])
            | .ok _ =>
              (.ok { name := actual.name, cloudID := "", tags := actual.tags }, [c1, c2, c3])
      | other =>
        (.err ("Found [" ++ toString other.length ++ "] Route Tables for VPC ID ["
          ++ r.clusterSubnet.identifier ++ "]"), [c1])

/-- `RouteTable.Render` (routetable.go lines 233-236): returns the cluster
unchanged, no provider call. -/
def Render (_r : RouteTableRes) (_renderResource : Shared) (renderCluster : Cluster) :
    Outcome Cluster × List EC2Call :=
  (.ok renderCluster, [])

end Kubicorn

namespace Kubicorn

/-! Concrete fixtures used by witnesses and counterexamples. -/

/-- A subnet whose identifier is already populated. -/
def snFix : Subnet := { name := "subnet-1", identifier := "snid-1" }

/-- The server pool owning `snFix`. -/
def spFix : ServerPool := { name := "pool-a", identifier := "spid-1", subnets := [snFix] }

/-- A cluster whose single pool and subnet are both named after the pool. -/
def clFix : Cluster :=
  { name := "clus", network := { identifier := "vpc-1" },
    serverPools := [⟨"pool-a", "spid-1", [⟨"pool-a", "subnet-123"⟩]⟩] }

/-- A cluster with no server pools at all. -/
def clEmptyFix : Cluster :=
  { name := "clus", network := { identifier := "vpc-1" }, serverPools := [] }

/-- A fresh route-table resource for `spFix`/`snFix` with empty caches. -/
def rFix : RouteTableRes :=
  { name := "pool-a", cloudID := "", tags := [],
    clusterSubnet := snFix, serverPool := spFix, cachedActual := none, cachedExpected := none }

/-- A remote route table carrying the identity tag and one association. -/
def rtRemoteFix : EC2RouteTable :=
  { routeTableId := some "rtb-0",
    tags := [⟨some "kubicorn-route-table-subnet-pair", some "subnet-1"⟩],
    associations := [⟨some "assoc-1"⟩] }

/-- A remote route table with no recorded associations. -/
def rtNoAssocFix : EC2RouteTable :=
  { routeTableId := some "rtb-0",
    tags := [⟨some "kubicorn-route-table-subnet-pair", some "subnet-1"⟩],
    associations := [] }

/-- A provider on which every request succeeds and lookups return exactly
one well-formed object. -/
def sdkOk : Sdk :=
  { describeRouteTables := fun _ _ => .ok [rtRemoteFix],
    createRouteTable := fun _ => .ok ⟨some "rtb-1", [], []⟩,
    describeInternetGateways := fun _ _ => .ok [⟨some "igw-1"⟩],
    createRoute := fun _ _ _ => .ok (),
    associateRouteTable := fun _ _ => .ok (),
    disassociateRouteTable := fun _ => .ok (),
    deleteRouteTable := fun _ => .ok (),
    createTags := fun _ _ => .ok () }

/-- Like `sdkOk` but the route-table lookup matches nothing. -/
def sdkNoneFound : Sdk :=
  { sdkOk with describeRouteTables := fun _ _ => .ok [] }

/-- Like `sdkOk` but the looked-up route table has zero associations. -/
def sdkNoAssoc : Sdk :=
  { sdkOk with describeRouteTables := fun _ _ => .ok [rtNoAssocFix] }

/-- An arbitrary snapshot used to instantiate the fast-path theorem. -/
def snapFix : Shared := { name := "s", cloudID := "c", tags := [("k", "v")] }

end Kubicorn

/-! The claims. -/

namespace Kubicorn

/-- Claim C1: for every pair of snapshots on which the Comparator reports
equality, `Apply` returns the expected snapshot unchanged and performs no
provider call (empty trace: no create-route-table, create-route, associate
or tag request), so a second `Apply` with identical desired state performs
no provider mutation. -/
theorem apply_equal_fast_path (r : RouteTableRes) (actual expected : Shared)
    (applyCluster : Cluster) (sdk : Sdk) (h : isEqual actual expected = true) :
    Apply r actual expected applyCluster sdk = (.ok expected, [], expected) := by
  simp [Apply, h]

/-- Witness for `apply_equal_fast_path` at a concrete equal pair. -/
theorem apply_equal_fast_path_witness :
    isEqual snapFix snapFix = true ∧
    Apply rFix snapFix snapFix clFix sdkOk = (.ok snapFix, [], snapFix) :=
  ⟨by decide, apply_equal_fast_path rFix snapFix snapFix clFix sdkOk (by decide)⟩

/-- Claim C2: on a fresh resource whose Name is the server pool's name (as
the spec's constructor sets it), `Expected` performs no provider call and
returns the snapshot whose Tags are exactly Name = serverPool.Name,
KubernetesCluster = cluster.Name and kubicorn-route-table-subnet-pair =
subnet.Name, and whose Name and CloudID both equal the server pool's
name. -/
theorem expected_pure_and_exact (r : RouteTableRes) (known : Cluster)
    (hcache : r.cachedExpected = none) (hname : r.name = r.serverPool.name) :
    (Expected r known).2.1 = [] ∧
    (Expected r known).1 = Outcome.ok
      ⟨r.serverPool.name, r.serverPool.name,
       [("Name", r.serverPool.name), ("KubernetesCluster", known.name),
        ("kubicorn-route-table-subnet-pair", r.clusterSubnet.name)]⟩ := by
  simp [Expected, hcache, hname]

/-- Witness for `expected_pure_and_exact` on the concrete fixture. -/
theorem expected_pure_and_exact_witness :
    rFix.cachedExpected = none ∧ rFix.name = rFix.serverPool.name ∧
    (Expected rFix clFix).2.1 = [] ∧
    (Expected rFix clFix).1 = Outcome.ok
      ⟨"pool-a", "pool-a",
       [("Name", "pool-a"), ("KubernetesCluster", "clus"),
        ("kubicorn-route-table-subnet-pair", "subnet-1")]⟩ := by
  refine ⟨rfl, rfl, ?_⟩
  simpa using expected_pure_and_exact rFix clFix rfl rfl

/-- Claim C3 counterexample: `clFix` contains no subnet whose name matches
the supplied subnet reference (`rFix.clusterSubnet.name`), so by the claim
`Apply` should fail with the missing-prerequisite error and make no
associate call; instead the code, matching the resource's own Name,
succeeds and associates the new route table with subnet "subnet-123". -/
theorem apply_subnet_scan_cex :
    (clFix.serverPools.all fun sp => sp.subnets.all fun sn =>
        !(sn.name == rFix.clusterSubnet.name)) = true ∧
    Apply rFix ⟨"a", "", []⟩ ⟨"pool-a", "pool-a", []⟩ clFix sdkOk =
      (.ok ⟨"pool-a", "rtb-1", []⟩,
       [.createRouteTable "vpc-1",
        .describeInternetGateways "tag:kubicorn-internet-gateway-name" "clus",
        .createRoute "0.0.0.0/0" "igw-1" "rtb-1",
        .associateRouteTable "subnet-123" "rtb-1",
        .createTags "rtb-1" []],
       ⟨"pool-a", "rtb-1", []⟩) := by decide

/-- Claim C3 amended: on the non-equal path, after creating the route
table and default route, the subnet identifier is resolved by
`subnetScan`, which matches the resource's own Name (not the supplied
subnet reference) against pool and subnet names with the last match
winning; `Apply` fails with the missing-prerequisite error and makes no
associate call exactly when that scan yields the empty identifier,
otherwise it issues the associate call with the scanned identifier. -/
theorem apply_subnet_resolution_amended (r : RouteTableRes) (actual expected : Shared)
    (c : Cluster) (sdk : Sdk) (rtOut : EC2RouteTable) (rtid : String)
    (ig : EC2InternetGateway) (igid : String)
    (hne : isEqual actual expected = false)
    (hcrt : sdk.createRouteTable c.network.identifier = .ok rtOut)
    (hrtid : rtOut.routeTableId = some rtid)
    (hig : sdk.describeInternetGateways "tag:kubicorn-internet-gateway-name" c.name = .ok [ig])
    (higid : ig.internetGatewayId = some igid)
    (hroute : sdk.createRoute "0.0.0.0/0" igid rtid = .ok ()) :
    (subnetScan c r.name = "" →
       Apply r actual expected c sdk =
         (.err "Unable to find subnet id",
          [.createRouteTable c.network.identifier,
           .describeInternetGateways "tag:kubicorn-internet-gateway-name" c.name,
           .createRoute "0.0.0.0/0" igid rtid], expected)) ∧
    (subnetScan c r.name ≠ "" →
       ∃ rest, (Apply r actual expected c sdk).2.1 =
         EC2Call.createRouteTable c.network.identifier ::
         EC2Call.describeInternetGateways "tag:kubicorn-internet-gateway-name" c.name ::
         EC2Call.createRoute "0.0.0.0/0" igid rtid ::
         EC2Call.associateRouteTable (subnetScan c r.name) rtid :: rest) := by
  constructor
  · intro hscan
    simp [Apply, hne, hcrt, hrtid, hig, higid, hroute, hscan]
  · intro hscan
    simp only [Apply, Tag, hne, hcrt, hrtid, hig, higid, hroute, Bool.false_eq_true, if_false]
    rw [if_neg hscan]
    split
    · exact ⟨[], rfl⟩
    · split
      · rename_i tcalls heq
        exact ⟨tcalls, by simp⟩
      · rename_i tcalls hno heq
        exact ⟨tcalls, by simp⟩

/-- Witness for `apply_subnet_resolution_amended`: on a cluster with no
server pools the scan is empty and `Apply` stops with the
missing-prerequisite error after exactly three calls. -/
theorem apply_subnet_resolution_amended_witness :
    isEqual ⟨"a", "", []⟩ ⟨"pool-a", "pool-a", []⟩ = false ∧
    subnetScan clEmptyFix "pool-a" = "" ∧
    Apply rFix ⟨"a", "", []⟩ ⟨"pool-a", "pool-a", []⟩ clEmptyFix sdkOk =
      (.err "Unable to find subnet id",
       [.createRouteTable "vpc-1",
        .describeInternetGateways "tag:kubicorn-internet-gateway-name" "clus",
        .createRoute "0.0.0.0/0" "igw-1" "rtb-1"],
       ⟨"pool-a", "pool-a", []⟩) :=
  ⟨by decide, rfl,
   (apply_subnet_resolution_amended rFix ⟨"a", "", []⟩ ⟨"pool-a", "pool-a", []⟩ clEmptyFix
       sdkOk ⟨some "rtb-1", [], []⟩ "rtb-1" ⟨some "igw-1"⟩ "igw-1"
       (by decide) rfl rfl rfl rfl rfl).1 rfl⟩

/-- Claim C4 counterexample: a successful non-equal `Apply` run overwrites
the expected snapshot's CloudID (here from "pool-a" to the provider's
"rtb-1"), so the expected argument is not left unmodified. -/
theorem apply_mutates_expected_cex :
    (Apply rFix ⟨"a", "", []⟩ ⟨"pool-a", "pool-a", []⟩ clFix sdkOk).2.2 =
      ⟨"pool-a", "rtb-1", []⟩ ∧
    (⟨"pool-a", "rtb-1", []⟩ : Shared) ≠ ⟨"pool-a", "pool-a", []⟩ := by decide

/-- Claim C4 amended: `Apply` never modifies the expected snapshot's Name
or Tags, and on the equal fast path it returns the expected snapshot
itself completely unmodified; only on the non-equal path may its CloudID
be overwritten (with the created route table's id). -/
theorem apply_frame_amended (r : RouteTableRes) (actual expected : Shared)
    (c : Cluster) (sdk : Sdk) :
    ((Apply r actual expected c sdk).2.2.name = expected.name ∧
     (Apply r actual expected c sdk).2.2.tags = expected.tags) ∧
    (isEqual actual expected = true →
       Apply r actual expected c sdk = (.ok expected, [], expected)) := by
  refine ⟨?_, fun h => by simp [Apply, h]⟩
  unfold Apply Tag
  dsimp only
  repeat' split
  all_goals exact ⟨rfl, rfl⟩

/-- Witness for `apply_frame_amended` on concrete non-equal and equal
runs. -/
theorem apply_frame_amended_witness :
    ((Apply rFix ⟨"a", "", []⟩ ⟨"pool-a", "pool-a", []⟩ clFix sdkOk).2.2.name = "pool-a" ∧
     (Apply rFix ⟨"a", "", []⟩ ⟨"pool-a", "pool-a", []⟩ clFix sdkOk).2.2.tags = []) ∧
    (isEqual snapFix snapFix = true ∧
     Apply rFix snapFix snapFix clFix sdkOk = (.ok snapFix, [], snapFix)) :=
  ⟨(apply_frame_amended rFix ⟨"a", "", []⟩ ⟨"pool-a", "pool-a", []⟩ clFix sdkOk).1,
   by decide,
   (apply_frame_amended rFix snapFix snapFix clFix sdkOk).2 (by decide)⟩

/-- Claim C5 counterexample: a successful non-equal `Apply` run (whose
expected snapshot does carry the identity pair) returns a snapshot with an
empty tag map, which therefore lacks the kubicorn-route-table-subnet-pair
entry. -/
theorem apply_result_tags_cex :
    (Apply rFix ⟨"a", "", []⟩
        ⟨"pool-a", "pool-a", [("kubicorn-route-table-subnet-pair", "subnet-1")]⟩
        clFix sdkOk).1 =
      .ok ⟨"pool-a", "rtb-1", []⟩ ∧
    mapLookup ([] : TagMap) "kubicorn-route-table-subnet-pair" = none := by decide

/-- Claim C5 amended: `Expected`'s fresh snapshot always maps
kubicorn-route-table-subnet-pair to the subnet's logical name; `Actual`
with an identified subnet returns the matched object's tag map unchanged
(so it carries the pair whenever that object does); `Delete`'s result
keeps the input snapshot's tag map (so it carries the pair whenever the
input does); but `Apply`'s non-equal path returns a snapshot whose tag map
is empty. -/
theorem identity_pair_amended :
    (∀ (r : RouteTableRes) (known : Cluster), r.cachedExpected = none →
       (Expected r known).1 = .ok ⟨r.serverPool.name, r.serverPool.name,
         [("Name", r.name), ("KubernetesCluster", known.name),
          ("kubicorn-route-table-subnet-pair", r.clusterSubnet.name)]⟩ ∧
       mapLookup [("Name", r.name), ("KubernetesCluster", known.name),
           ("kubicorn-route-table-subnet-pair", r.clusterSubnet.name)]
         "kubicorn-route-table-subnet-pair" = some r.clusterSubnet.name) ∧
    (∀ (r : RouteTableRes) (known : Cluster) (sdk : Sdk) (rt : EC2RouteTable) (ts : TagMap)
       (v : String),
       r.cachedActual = none → r.clusterSubnet.identifier ≠ "" →
       sdk.describeRouteTables "tag:kubicorn-route-table-subnet-pair" r.clusterSubnet.name =
         .ok [rt] →
       readTags rt.tags [] = some ts →
       mapLookup ts "kubicorn-route-table-subnet-pair" = some v →
       (Actual r known sdk).1 = .ok ⟨r.clusterSubnet.name, r.clusterSubnet.name, ts⟩ ∧
       mapLookup ts "kubicorn-route-table-subnet-pair" = some v) ∧
    (∀ (r : RouteTableRes) (actual : Shared) (known : Cluster) (sdk : Sdk) (snap : Shared)
       (v : String),
       mapLookup actual.tags "kubicorn-route-table-subnet-pair" = some v →
       (Delete r actual known sdk).1 = .ok snap →
       mapLookup snap.tags "kubicorn-route-table-subnet-pair" = some v) ∧
    (∀ (r : RouteTableRes) (actual expected : Shared) (c : Cluster) (sdk : Sdk)
       (snap : Shared),
       isEqual actual expected = false →
       (Apply r actual expected c sdk).1 = .ok snap → snap.tags = []) := by
  refine ⟨?_, ?_, ?_, ?_⟩
  · intro r known hce
    refine ⟨by simp [Expected, hce], ?_⟩
    simp [mapLookup, List.find?]
  · intro r known sdk rt ts v hca hid hq hread hv
    refine ⟨?_, hv⟩
    unfold Actual
    rw [hca, if_neg hid]
    simp [hq, hread]
  · intro r actual known sdk snap v hv h
    unfold Delete at h
    repeat' split at h
    all_goals simp at h
    subst h
    simpa using hv
  · intro r actual expected c sdk snap hne h
    unfold Apply Tag at h
    dsimp only at h
    repeat' split at h
    all_goals simp_all
    subst h
    rfl

/-- Witness for `identity_pair_amended`: each part instantiated on the
concrete fixtures. -/
theorem identity_pair_amended_witness :
    ((Expected rFix clFix).1 = .ok ⟨"pool-a", "pool-a",
       [("Name", "pool-a"), ("KubernetesCluster", "clus"),
        ("kubicorn-route-table-subnet-pair", "subnet-1")]⟩ ∧
     mapLookup [("Name", "pool-a"), ("KubernetesCluster", "clus"),
         ("kubicorn-route-table-subnet-pair", "subnet-1")]
       "kubicorn-route-table-subnet-pair" = some "subnet-1") ∧
    mapLookup (⟨"x", "", [("kubicorn-route-table-subnet-pair", "subnet-1")]⟩ : Shared).tags
      "kubicorn-route-table-subnet-pair" = some "subnet-1" ∧
    (⟨"pool-a", "rtb-1", []⟩ : Shared).tags = ([] : TagMap) := by
  refine ⟨?_, ?_, ?_⟩
  · exact identity_pair_amended.1 rFix clFix rfl
  · exact identity_pair_amended.2.2.1 rFix
      ⟨"x", "rtb-1", [("kubicorn-route-table-subnet-pair", "subnet-1")]⟩
      clFix sdkOk ⟨"x", "", [("kubicorn-route-table-subnet-pair", "subnet-1")]⟩ "subnet-1"
      (by decide) (by decide)
  · exact identity_pair_amended.2.2.2 rFix ⟨"a", "", []⟩ ⟨"pool-a", "pool-a", []⟩ clFix
      sdkOk ⟨"pool-a", "rtb-1", []⟩ (by decide) (by decide)

/-- Claim C6: on a fresh resource whose subnet has a non-empty Identifier,
if the tag-filtered lookup returns any number of route tables other than
one, `Actual` fails with the cardinality fault naming the count and the
subnet identifier, performs only the one describe call, leaves the
resource (hence its Actual cache) untouched, and a later `Actual` call on
the returned resource re-queries the provider instead of using a cache. -/
theorem actual_cardinality_fault (r : RouteTableRes) (known : Cluster) (sdk : Sdk)
    (rts : List EC2RouteTable)
    (hcache : r.cachedActual = none) (hid : r.clusterSubnet.identifier ≠ "")
    (hq : sdk.describeRouteTables "tag:kubicorn-route-table-subnet-pair"
        r.clusterSubnet.name = .ok rts)
    (hlen : rts.length ≠ 1) :
    Actual r known sdk =
      (.err ("Found [" ++ toString rts.length ++ "] Route Tables for VPC ID ["
          ++ r.clusterSubnet.identifier ++ "]"),
       [EC2Call.describeRouteTables "tag:kubicorn-route-table-subnet-pair" r.clusterSubnet.name],
       r) ∧
    (Actual (Actual r known sdk).2.2 known sdk).2.1 =
      [EC2Call.describeRouteTables "tag:kubicorn-route-table-subnet-pair" r.clusterSubnet.name] := by
  rcases rts with _ | ⟨rt, rest⟩
  · constructor
    · simp [Actual, hcache, hid, hq]
    · simp [Actual, hcache, hid, hq]
  · rcases rest with _ | ⟨rt2, rest2⟩
    · exact absurd rfl hlen
    · constructor
      · simp [Actual, hcache, hid, hq]
      · simp [Actual, hcache, hid, hq]

/-- Witness for `actual_cardinality_fault`: a zero-match lookup on the
concrete fixture. -/
theorem actual_cardinality_fault_witness :
    rFix.cachedActual = none ∧ rFix.clusterSubnet.identifier ≠ "" ∧
    sdkNoneFound.describeRouteTables "tag:kubicorn-route-table-subnet-pair" "subnet-1" =
      .ok [] ∧
    Actual rFix clFix sdkNoneFound =
      (.err "Found [0] Route Tables for VPC ID [snid-1]",
       [EC2Call.describeRouteTables "tag:kubicorn-route-table-subnet-pair" "subnet-1"], rFix) :=
  ⟨rfl, by decide, rfl,
   (actual_cardinality_fault rFix clFix sdkNoneFound [] rfl (by decide) rfl (by decide)).1⟩

/-- Claim C7: `Delete` on an actual snapshot whose CloudID is empty fails
with the missing-identifier error naming the snapshot and performs zero
provider calls. -/
theorem delete_missing_identifier (r : RouteTableRes) (actual : Shared)
    (known : Cluster) (sdk : Sdk) (h : actual.cloudID = "") :
    Delete r actual known sdk =
      (.err ("Unable to delete routetable resource without ID [" ++ actual.name ++ "]"), []) := by
  simp [Delete, h]

/-- Witness for `delete_missing_identifier` at a concrete empty-id
snapshot. -/
theorem delete_missing_identifier_witness :
    (⟨"x", "", [("k", "v")]⟩ : Shared).cloudID = "" ∧
    Delete rFix ⟨"x", "", [("k", "v")]⟩ clFix sdkOk =
      (.err "Unable to delete routetable resource without ID [x]", []) := by
  refine ⟨rfl, ?_⟩
  simpa using delete_missing_identifier rFix ⟨"x", "", [("k", "v")]⟩ clFix sdkOk rfl

/-- Claim C8: whenever `Delete` on a snapshot with a non-empty CloudID
succeeds, the returned snapshot has the same Name and the same Tags
mapping as the input and an empty CloudID. -/
theorem delete_preserves_name_tags (r : RouteTableRes) (actual : Shared) (known : Cluster)
    (sdk : Sdk) (snap : Shared)
    (hid : actual.cloudID ≠ "")
    (h : (Delete r actual known sdk).1 = .ok snap) :
    snap.name = actual.name ∧ snap.cloudID = "" ∧ snap.tags = actual.tags := by
  unfold Delete at h
  rw [if_neg hid] at h
  repeat' split at h
  all_goals simp at h
  all_goals (subst h; exact ⟨rfl, rfl, rfl⟩)

/-- Witness for `delete_preserves_name_tags` on a concrete successful
deletion. -/
theorem delete_preserves_name_tags_witness :
    (⟨"x", "rtb-1", [("k", "v")]⟩ : Shared).cloudID ≠ "" ∧
    (Delete rFix ⟨"x", "rtb-1", [("k", "v")]⟩ clFix sdkOk).1 =
      .ok ⟨"x", "", [("k", "v")]⟩ ∧
    ("x" : String) = "x" ∧ ("" : String) = "" ∧ ([("k", "v")] : TagMap) = [("k", "v")] :=
  ⟨by decide, by decide,
   delete_preserves_name_tags rFix ⟨"x", "rtb-1", [("k", "v")]⟩ clFix sdkOk
     ⟨"x", "", [("k", "v")]⟩ (by decide) (by decide)⟩

/-- Claim C9 is wrong about the code: when the looked-up route table has
zero recorded associations, `Delete` indexes Associations[0] out of range
and aborts with a runtime fault instead of returning a value or an
error.  Evaluating the code at the failing input. -/
theorem delete_empty_associations_crash :
    Delete rFix ⟨"x", "rtb-1", []⟩ clFix sdkNoAssoc =
      (.crash, [EC2Call.describeRouteTables "tag:kubicorn-route-table-subnet-pair" "subnet-1"]) := by
  decide

/-- Claim C10: when the resource's subnet name differs from its server
pool's name, any successful `Actual` (with identified subnet, fresh cache)
and fresh `Expected` snapshots have different Names and different
CloudIDs, so the Comparator reports inequality and `Apply`'s no-op fast
path is unreachable. -/
theorem actual_expected_never_equal (r : RouteTableRes) (known : Cluster) (sdk : Sdk)
    (a e : Shared)
    (hnames : r.clusterSubnet.name ≠ r.serverPool.name)
    (hca : r.cachedActual = none) (hce : r.cachedExpected = none)
    (hid : r.clusterSubnet.identifier ≠ "")
    (hA : (Actual r known sdk).1 = .ok a)
    (hE : (Expected r known).1 = .ok e) :
    a.name ≠ e.name ∧ a.cloudID ≠ e.cloudID ∧ isEqual a e = false := by
  simp only [Expected, hce] at hE
  unfold Actual at hA
  rw [hca] at hA
  rw [if_neg hid] at hA
  repeat' split at hA
  all_goals simp_all [isEqual]
  subst hA
  subst hE
  exact ⟨hnames, hnames, fun h => absurd h hnames⟩

/-- Witness for `actual_expected_never_equal` on the concrete fixture
(subnet "subnet-1", pool "pool-a"). -/
theorem actual_expected_never_equal_witness :
    rFix.clusterSubnet.name ≠ rFix.serverPool.name ∧
    (Actual rFix clFix sdkOk).1 = .ok ⟨"subnet-1", "subnet-1",
      [("kubicorn-route-table-subnet-pair", "subnet-1")]⟩ ∧
    (Expected rFix clFix).1 = .ok ⟨"pool-a", "pool-a",
      [("Name", "pool-a"), ("KubernetesCluster", "clus"),
       ("kubicorn-route-table-subnet-pair", "subnet-1")]⟩ ∧
    isEqual ⟨"subnet-1", "subnet-1", [("kubicorn-route-table-subnet-pair", "subnet-1")]⟩
      ⟨"pool-a", "pool-a",
       [("Name", "pool-a"), ("KubernetesCluster", "clus"),
        ("kubicorn-route-table-subnet-pair", "subnet-1")]⟩ = false :=
  ⟨by decide, by decide, by decide,
   (actual_expected_never_equal rFix clFix sdkOk _ _ (by decide) rfl rfl (by decide)
     (by decide) (by decide)).2.2⟩

end Kubicorn
